import Mathlib

/-!
Shallow embedding of `src/app.py` (England & Wales Housing Affordability Index
dashboard, a Dash application) and proofs about its behaviour.

Modelling conventions:
* pandas numeric cells are modelled as `Option ℚ`; `none` is the NaN that
  `pd.read_csv` / `pd.to_numeric(errors="coerce")` produce for a missing or
  non-numeric entry, `some q` is a finite float (rationals stand in for IEEE
  doubles; every arithmetic operation the program performs on them is exact).
* a row of `Merged data.csv` carries the columns LAD23CD, Location,
  Median House Price, Median Salary, Housing Affordability Index; the module
  initialisation (line 12 of app.py) adds the column
  Original Affordability Index as a copy of Housing Affordability Index.
* `dash.callback_context` is reduced to the one bit the handler reads:
  whether the trigger was `reset-button.n_clicks`.
* the choropleth figure is modelled by the data that determines it: the
  (district, band) pairs, the colour column, the hover template and the title.
-/

namespace HAIDash

/-- A row of the module-level `MergedData` dataframe after line 12 of app.py
(the five CSV columns plus the snapshot column added at load time). -/
structure District where
  lad23cd : String
  location : String
  medianHousePrice : Option ℚ
  medianSalary : Option ℚ
  housingAffordabilityIndex : Option ℚ
  originalAffordabilityIndex : Option ℚ
deriving DecidableEq

/-- A row of `Merged data.csv` as loaded on line 10 of app.py, before the
Original Affordability Index column exists. -/
structure CsvRow where
  lad23cd : String
  location : String
  medianHousePrice : Option ℚ
  medianSalary : Option ℚ
  housingAffordabilityIndex : Option ℚ
deriving DecidableEq

/-- Line 12 of app.py:
`MergedData["Original Affordability Index"] = MergedData["Housing Affordability Index"].copy()`. -/
def loadSnapshot (rows : List CsvRow) : List District :=
  rows.map fun r =>
    { lad23cd := r.lad23cd
      location := r.location
      medianHousePrice := r.medianHousePrice
      medianSalary := r.medianSalary
      housingAffordabilityIndex := r.housingAffordabilityIndex
      originalAffordabilityIndex := r.housingAffordabilityIndex }

/-- The four affordability bands (the `labels` lists of lines 26 and 177). -/
inductive Band where
  | veryAffordable
  | affordable
  | expensive
  | veryExpensive
deriving DecidableEq

/-- The fixed `color_map` of `generate_affordability_map` (lines 35-40). -/
def bandColor : Band → String
  | Band.veryAffordable => "green"
  | Band.affordable => "yellow"
  | Band.expensive => "orange"
  | Band.veryExpensive => "red"

/-- `pd.cut(x, bins=[0, 6, 9, 12, inf], labels=labels, right=True,
include_lowest=includeLowest)` specialised to these bins: with pandas'
default `right=True` the intervals are left-open and right-closed,
`(0, 6], (6, 9], (9, 12], (12, ∞]`; `include_lowest=True` closes the first
interval on the left, making it `[0, 6]`.  Values outside every interval
(and NaN inputs) get no band (NaN).  Used with `includeLowest := true` on
lines 28-33 and with the pandas default `includeLowest := false` on
line 178 of app.py. -/
def pdCut (includeLowest : Bool) : Option ℚ → Option Band
  | none => none
  | some q =>
    if (0 < q ∨ (includeLowest = true ∧ q = 0)) ∧ q ≤ 6 then some Band.veryAffordable
    else if 6 < q ∧ q ≤ 9 then some Band.affordable
    else if 9 < q ∧ q ≤ 12 then some Band.expensive
    else if 12 < q then some Band.veryExpensive
    else none

/-- Floor of a rational, computed on the numerator and denominator
(`Int.fdiv` is floor division). -/
def ratFloor (q : ℚ) : ℤ := q.num.fdiv (q.den : ℤ)

/-- Round a rational to the nearest integer, ties to even: the rounding used
by Python's fixed-point float formatting (`:,.0f`, `:.2f`). -/
def roundHalfEven (q : ℚ) : ℤ :=
  let f : ℤ := ratFloor q
  let r : ℚ := q - (f : ℚ)
  if r < 1 / 2 then f
  else if 1 / 2 < r then f + 1
  else if f % 2 = 0 then f else f + 1

/-- Insert a comma before every group of three digits, counting from the
right; the input is the reversed digit list. -/
def groupThousandsRev : List Char → List Char
  | a :: b :: c :: d :: rest => a :: b :: c :: ',' :: groupThousandsRev (d :: rest)
  | l => l

/-- A natural number with thousands separators, e.g. `1234567 ↦ "1,234,567"`. -/
def natGrouped (n : ℕ) : String :=
  String.mk (groupThousandsRev (Nat.repr n).data.reverse).reverse

/-- An integer with thousands separators. -/
def intGrouped (i : ℤ) : String :=
  (if i < 0 then "-" else "") ++ natGrouped i.natAbs

/-- Python `f"£{x:,.0f}"`: pound sign, value rounded to an integer
(half to even), thousands separators. -/
def fmtCurrency0 (q : ℚ) : String := "£" ++ intGrouped (roundHalfEven q)

/-- Python `f"{x:.2f}"`: two fixed decimal places, half to even. -/
def fmtFixed2 (q : ℚ) : String :=
  let n : ℤ := roundHalfEven (q * 100)
  let m : ℕ := n.natAbs
  (if n < 0 then "-" else "") ++ Nat.repr (m / 100) ++ "." ++
    (if m % 100 < 10 then "0" ++ Nat.repr (m % 100) else Nat.repr (m % 100))

/-- Lines 184-192 of app.py format each cell of the ranking tables with
`pd.to_numeric(col, errors="coerce")` followed by
`.map(lambda x: f(x) if pd.notnull(x) else "N/A")`.  On a numeric column the
coercion is the identity; a missing or non-numeric cell is NaN (`none`) and
is displayed as the literal string `"N/A"`. -/
def fmtOptCell (f : ℚ → String) : Option ℚ → String
  | some q => f q
  | none => "N/A"

/-- A displayed row of either ranking table: the columns
`[Location, Median House Price, Median Salary, Housing Affordability Index]`
selected on lines 181-182, formatted by lines 184-192. -/
structure TableRow where
  location : String
  medianHousePrice : String
  medianSalary : String
  housingAffordabilityIndex : String
deriving DecidableEq

/-- Format one selected district as a ranking-table row (lines 184-192). -/
def formatRow (d : District) : TableRow :=
  { location := d.location
    medianHousePrice := fmtOptCell fmtCurrency0 d.medianHousePrice
    medianSalary := fmtOptCell fmtCurrency0 d.medianSalary
    housingAffordabilityIndex := fmtOptCell fmtFixed2 d.housingAffordabilityIndex }

/-- `df_to_html_table` (lines 76-79): a header row naming the four columns
and one body row per dataframe row. -/
structure HtmlTable where
  header : List String
  body : List TableRow
deriving DecidableEq

/-- Lines 76-79 of app.py, applied to the four-column ranking frames. -/
def df_to_html_table (rows : List TableRow) : HtmlTable :=
  { header := ["Location", "Median House Price", "Median Salary",
      "Housing Affordability Index"]
    body := rows }

/-- Sort key for the ranking selection: the Housing Affordability Index
column.  Only applied to rows that passed the NaN filter, where the default
is never read. -/
def idxKey (d : District) : ℚ := d.housingAffordabilityIndex.getD 0

/-- Whether a district has a non-NaN Housing Affordability Index. -/
def hasIndex (d : District) : Bool := d.housingAffordabilityIndex.isSome

/-- Ascending comparison on the index column. -/
def leAsc (a b : District) : Prop := idxKey a ≤ idxKey b

/-- Descending comparison on the index column. -/
def leDesc (a b : District) : Prop := idxKey b ≤ idxKey a

instance : DecidableRel leAsc :=
  fun a b => (inferInstance : Decidable (idxKey a ≤ idxKey b))

instance : DecidableRel leDesc :=
  fun a b => (inferInstance : Decidable (idxKey b ≤ idxKey a))

instance : IsTotal District leAsc := ⟨fun a b => le_total (idxKey a) (idxKey b)⟩

instance : IsTrans District leAsc := ⟨fun _ _ _ hab hbc => le_trans hab hbc⟩

instance : IsTotal District leDesc := ⟨fun a b => le_total (idxKey b) (idxKey a)⟩

instance : IsTrans District leDesc := ⟨fun _ _ _ hab hbc => le_trans hbc hab⟩

/-- `df.nsmallest(n, "Housing Affordability Index")` (line 181): pandas drops
rows whose sort key is NaN, then returns the `n` rows with the smallest keys
in ascending order, ties kept in order of first appearance (`keep="first"`);
a stable ascending sort followed by `take n` computes exactly that. -/
def nsmallest (n : ℕ) (df : List District) : List District :=
  (List.insertionSort leAsc (df.filter hasIndex)).take n

/-- `df.nlargest(n, "Housing Affordability Index")` (line 182): NaN keys
dropped, the `n` largest keys in descending order, ties in order of first
appearance. -/
def nlargest (n : ℕ) (df : List District) : List District :=
  (List.insertionSort leDesc (df.filter hasIndex)).take n

/-- The result of the branch on lines 155-173 of `update_dashboard`: the
per-request dataframe with its recomputed index column, plus the warning
state. -/
structure BranchResult where
  df : List District
  warningMessage : String
  showWarning : Bool
deriving DecidableEq

/-- The warning text of line 166 of app.py. -/
def invalidSalaryWarning : String :=
  "⚠ Please enter a valid salary greater than £0."

/-- Lines 148-173 of `update_dashboard`: recompute the Housing Affordability
Index column of the request's dataframe and decide the warning state.
Branch order as in the source: reset first, then `user_salary is not None
and user_salary > 0`, then `user_salary is not None and user_salary <= 0`,
else the fallback.  (For `some s`, `¬ 0 < s` is exactly `s ≤ 0`, so the
`match`/`if` below is the same case split.) -/
def recomputeIndices (base : List District) (userSalary : Option ℚ)
    (triggeredByReset : Bool) : BranchResult :=
  if triggeredByReset then
    { df := base.map fun d =>
        { d with housingAffordabilityIndex := d.originalAffordabilityIndex }
      warningMessage := ""
      showWarning := false }
  else
    match userSalary with
    | some s =>
      if 0 < s then
        { df := base.map fun d =>
            { d with housingAffordabilityIndex :=
                d.medianHousePrice.map fun p => p / s }
          warningMessage := ""
          showWarning := false }
      else
        { df := base.map fun d =>
            { d with housingAffordabilityIndex := d.originalAffordabilityIndex }
          warningMessage := invalidSalaryWarning
          showWarning := true }
    | none =>
      { df := base.map fun d =>
          { d with housingAffordabilityIndex := d.originalAffordabilityIndex }
        warningMessage := ""
        showWarning := false }

/-- The constant hover template of lines 61-66 of app.py. -/
def hoverTemplateText : String :=
  "<b>%\x7bhovertext\x7d</b><br>Affordability Index: %\x7bcustomdata[0]:.2f\x7d<br>Median House Price: £%\x7bcustomdata[1]:,.0f\x7d<br>Median Salary: £%\x7bcustomdata[2]:,.0f\x7d<extra></extra>"

/-- The data determining the choropleth figure built by
`generate_affordability_map`: each district with the band assigned by the
`pd.cut` of lines 28-33 (which overwrites the band column the caller may
have set), the colour of each district under the fixed `color_map`, the
hover template and the title. -/
structure Figure where
  rows : List (District × Option Band)
  colors : List (Option String)
  hoverTemplate : String
  title : String
deriving DecidableEq

/-- `generate_affordability_map(df, title)` (lines 23-73).  The function
recomputes `df["Affordability Level"]` with `include_lowest=True` before
rendering, so the band column is always the `includeLowest := true` cut. -/
def generate_affordability_map (df : List District) (title : String) : Figure :=
  let banded := df.map fun d => (d, pdCut true d.housingAffordabilityIndex)
  { rows := banded
    colors := banded.map fun p => p.2.map bandColor
    hoverTemplate := hoverTemplateText
    title := title }

/-- The default map title of line 194 of app.py. -/
def defaultTitle : String :=
  "England & Wales Housing Affordability Map based on 2024 data"

/-- The custom title of line 196:
`f"Affordability based on an annual salary of £{int(user_salary):,} "`.
Python's `int` truncates toward zero (`Int.div` on numerator and
denominator). -/
def salaryTitle (s : ℚ) : String :=
  "Affordability based on an annual salary of £" ++
    intGrouped (Int.tdiv s.num (s.den : ℤ)) ++ " "

/-- Lines 194-196: `if not triggered_by_reset and user_salary and
user_salary > 0`.  Python truthiness of `user_salary` is `s ≠ 0` for a
number and false for `None`. -/
def dashTitle (userSalary : Option ℚ) (triggeredByReset : Bool) : String :=
  match triggeredByReset, userSalary with
  | false, some s => if s ≠ 0 ∧ 0 < s then salaryTitle s else defaultTitle
  | _, _ => defaultTitle

/-- The five outputs of the callback (lines 137-145, 199-205). -/
structure DashboardOutput where
  figure : Figure
  affordableTable : HtmlTable
  expensiveTable : HtmlTable
  warningMessage : String
  showWarning : Bool
deriving DecidableEq

/-- Whether line 150 of the handler binds `df` to a copy of the module-level
dataframe (`df = MergedData.copy()`, the source's choice) or to the
dataframe itself (`df = MergedData`, the aliasing alternative, under which
every column assignment in the handler would write through to the shared
data). -/
inductive CopyMode where
  | copy
  | view
deriving DecidableEq

/-- The body of `update_dashboard` (lines 147-205), parameterised by the
aliasing choice of line 150.  The second component of the result is the
module-level `MergedData` as the handler leaves it: under `CopyMode.view`
the recomputed per-request dataframe would have replaced it (the band
column that line 178 would also have added is not representable in
`District` and is dropped).  The `_bandsLine178` binding is the
`pd.cut` of line 178, whose result is overwritten inside
`generate_affordability_map` before anything reads it. -/
def update_dashboard_core (mode : CopyMode) (base : List District)
    (userSalary : Option ℚ) (triggeredByReset : Bool) :
    DashboardOutput × List District :=
  let br := recomputeIndices base userSalary triggeredByReset
  let df := br.df
  let _bandsLine178 : List (Option Band) :=
    df.map fun d => pdCut false d.housingAffordabilityIndex
  let top_affordable := (nsmallest 5 df).map formatRow
  let top_expensive := (nlargest 5 df).map formatRow
  let title := dashTitle userSalary triggeredByReset
  ({ figure := generate_affordability_map df title
     affordableTable := df_to_html_table top_affordable
     expensiveTable := df_to_html_table top_expensive
     warningMessage := br.warningMessage
     showWarning := br.showWarning },
   match mode with
   | CopyMode.copy => base
   | CopyMode.view => df)

/-- `update_dashboard` as written: line 150 is `df = MergedData.copy()`,
so the handler runs in `CopyMode.copy`. -/
def update_dashboard (base : List District) (userSalary : Option ℚ)
    (triggeredByReset : Bool) : DashboardOutput × List District :=
  update_dashboard_core CopyMode.copy base userSalary triggeredByReset

/-! Sample data used by witnesses and counterexamples. -/

/-- A district whose index is exactly the 6 boundary. -/
def sampleA : District := ⟨"E06000001", "Alpha", some 300000, some 40000, some 6, some 6⟩

/-- A district with index 3. -/
def sampleB : District := ⟨"E06000002", "Beta", some 150000, some 30000, some 3, some 3⟩

/-- A district whose numeric columns are all missing (NaN). -/
def sampleNaN : District := ⟨"E06000003", "Gamma", none, none, none, none⟩

/-- A two-district dataset with distinct indices 6 and 3. -/
def samplePair : List District := [sampleA, sampleB]

/-- A nine-district dataset with indices 1..9. -/
def sampleNine : List District :=
  [⟨"E1", "D1", some 10, some 10, some 1, some 1⟩,
   ⟨"E2", "D2", some 20, some 10, some 2, some 2⟩,
   ⟨"E3", "D3", some 30, some 10, some 3, some 3⟩,
   ⟨"E4", "D4", some 40, some 10, some 4, some 4⟩,
   ⟨"E5", "D5", some 50, some 10, some 5, some 5⟩,
   ⟨"E6", "D6", some 60, some 10, some 6, some 6⟩,
   ⟨"E7", "D7", some 70, some 10, some 7, some 7⟩,
   ⟨"E8", "D8", some 80, some 10, some 8, some 8⟩,
   ⟨"E9", "D9", some 90, some 10, some 9, some 9⟩]

/-! Projections of the handler output, all definitional. -/

theorem out_figure_rows (base : List District) (sal : Option ℚ) (r : Bool) :
    (update_dashboard base sal r).1.figure.rows =
      ((recomputeIndices base sal r).df).map
        (fun d => (d, pdCut true d.housingAffordabilityIndex)) := rfl

theorem out_affordableTable (base : List District) (sal : Option ℚ) (r : Bool) :
    (update_dashboard base sal r).1.affordableTable =
      df_to_html_table ((nsmallest 5 (recomputeIndices base sal r).df).map formatRow) := rfl

theorem out_expensiveTable (base : List District) (sal : Option ℚ) (r : Bool) :
    (update_dashboard base sal r).1.expensiveTable =
      df_to_html_table ((nlargest 5 (recomputeIndices base sal r).df).map formatRow) := rfl

theorem out_warningMessage (base : List District) (sal : Option ℚ) (r : Bool) :
    (update_dashboard base sal r).1.warningMessage =
      (recomputeIndices base sal r).warningMessage := rfl

theorem out_showWarning (base : List District) (sal : Option ℚ) (r : Bool) :
    (update_dashboard base sal r).1.showWarning =
      (recomputeIndices base sal r).showWarning := rfl

/-! Reduction of the four branches of lines 155-173. -/

theorem recomputeIndices_reset (base : List District) (sal : Option ℚ) :
    recomputeIndices base sal true =
      { df := base.map fun d =>
          { d with housingAffordabilityIndex := d.originalAffordabilityIndex }
        warningMessage := ""
        showWarning := false } := rfl

theorem recomputeIndices_pos (base : List District) {s : ℚ} (hs : 0 < s) :
    recomputeIndices base (some s) false =
      { df := base.map fun d =>
          { d with housingAffordabilityIndex :=
              d.medianHousePrice.map fun p => p / s }
        warningMessage := ""
        showWarning := false } := by
  simp [recomputeIndices, hs]

theorem recomputeIndices_nonpos (base : List District) {s : ℚ} (hs : s ≤ 0) :
    recomputeIndices base (some s) false =
      { df := base.map fun d =>
          { d with housingAffordabilityIndex := d.originalAffordabilityIndex }
        warningMessage := invalidSalaryWarning
        showWarning := true } := by
  simp [recomputeIndices, not_lt.mpr hs]

theorem recomputeIndices_none (base : List District) :
    recomputeIndices base none false =
      { df := base.map fun d =>
          { d with housingAffordabilityIndex := d.originalAffordabilityIndex }
        warningMessage := ""
        showWarning := false } := rfl

theorem recomputeIndices_length (base : List District) (sal : Option ℚ) (r : Bool) :
    (recomputeIndices base sal r).df.length = base.length := by
  cases r with
  | true => simp [recomputeIndices_reset]
  | false =>
    cases sal with
    | none => simp [recomputeIndices_none]
    | some s =>
      by_cases hs : 0 < s
      · simp [recomputeIndices_pos base hs]
      · simp [recomputeIndices_nonpos base (le_of_not_lt hs)]

/-! Counting lemmas for the ranking-table ordering. -/

theorem countP_two_disjoint_le {α : Type} (p q : α → Bool) (l : List α)
    (h : ∀ x ∈ l, ¬(p x = true ∧ q x = true)) :
    l.countP p + l.countP q ≤ l.length := by
  induction l with
  | nil => simp
  | cons a t ih =>
    have ht := ih fun x hx => h x (List.mem_cons_of_mem a hx)
    have ha := h a (List.mem_cons_self a t)
    by_cases hp : p a = true <;> by_cases hq : q a = true
    · exact absurd ⟨hp, hq⟩ ha
    · simp [List.countP_cons, hp, hq]
      omega
    · simp [List.countP_cons, hp, hq]
      omega
    · simp [List.countP_cons, hp, hq]
      omega

theorem countP_ge_of_mem_take_asc (l : List District) (k : ℕ) (a : District)
    (ha : a ∈ (List.insertionSort leAsc l).take k) :
    l.length + 1 - k ≤ l.countP fun x => decide (idxKey a ≤ idxKey x) := by
  have hsorted : List.Sorted leAsc (List.insertionSort leAsc l) :=
    List.sorted_insertionSort leAsc l
  have hperm : (List.insertionSort leAsc l).Perm l := List.perm_insertionSort leAsc l
  have hpw : List.Pairwise leAsc
      ((List.insertionSort leAsc l).take k ++ (List.insertionSort leAsc l).drop k) := by
    rw [List.take_append_drop]
    exact hsorted
  have hcross := (List.pairwise_append.mp hpw).2.2
  have h1 : 0 < ((List.insertionSort leAsc l).take k).countP
      fun x => decide (idxKey a ≤ idxKey x) :=
    List.countP_pos_iff.mpr ⟨a, ha, by simp⟩
  have h2 : ((List.insertionSort leAsc l).drop k).countP
      (fun x => decide (idxKey a ≤ idxKey x)) =
      ((List.insertionSort leAsc l).drop k).length :=
    List.countP_eq_length.mpr fun x hx => decide_eq_true (hcross a ha x hx)
  have h3 : (List.insertionSort leAsc l).countP
      (fun x => decide (idxKey a ≤ idxKey x)) =
      ((List.insertionSort leAsc l).take k).countP
        (fun x => decide (idxKey a ≤ idxKey x)) +
      ((List.insertionSort leAsc l).drop k).countP
        (fun x => decide (idxKey a ≤ idxKey x)) := by
    conv_lhs => rw [← List.take_append_drop k (List.insertionSort leAsc l)]
    exact List.countP_append _ _ _
  have h4 : (List.insertionSort leAsc l).countP
      (fun x => decide (idxKey a ≤ idxKey x)) =
      l.countP fun x => decide (idxKey a ≤ idxKey x) := hperm.countP_eq _
  have h5 : (List.insertionSort leAsc l).length = l.length := hperm.length_eq
  have h6 : ((List.insertionSort leAsc l).drop k).length =
      (List.insertionSort leAsc l).length - k := List.length_drop k _
  omega

theorem countP_ge_of_mem_take_desc (l : List District) (k : ℕ) (b : District)
    (hb : b ∈ (List.insertionSort leDesc l).take k) :
    l.length + 1 - k ≤ l.countP fun x => decide (idxKey x ≤ idxKey b) := by
  have hsorted : List.Sorted leDesc (List.insertionSort leDesc l) :=
    List.sorted_insertionSort leDesc l
  have hperm : (List.insertionSort leDesc l).Perm l := List.perm_insertionSort leDesc l
  have hpw : List.Pairwise leDesc
      ((List.insertionSort leDesc l).take k ++ (List.insertionSort leDesc l).drop k) := by
    rw [List.take_append_drop]
    exact hsorted
  have hcross := (List.pairwise_append.mp hpw).2.2
  have h1 : 0 < ((List.insertionSort leDesc l).take k).countP
      fun x => decide (idxKey x ≤ idxKey b) :=
    List.countP_pos_iff.mpr ⟨b, hb, by simp⟩
  have h2 : ((List.insertionSort leDesc l).drop k).countP
      (fun x => decide (idxKey x ≤ idxKey b)) =
      ((List.insertionSort leDesc l).drop k).length :=
    List.countP_eq_length.mpr fun x hx => decide_eq_true (hcross b hb x hx)
  have h3 : (List.insertionSort leDesc l).countP
      (fun x => decide (idxKey x ≤ idxKey b)) =
      ((List.insertionSort leDesc l).take k).countP
        (fun x => decide (idxKey x ≤ idxKey b)) +
      ((List.insertionSort leDesc l).drop k).countP
        (fun x => decide (idxKey x ≤ idxKey b)) := by
    conv_lhs => rw [← List.take_append_drop k (List.insertionSort leDesc l)]
    exact List.countP_append _ _ _
  have h4 : (List.insertionSort leDesc l).countP
      (fun x => decide (idxKey x ≤ idxKey b)) =
      l.countP fun x => decide (idxKey x ≤ idxKey b) := hperm.countP_eq _
  have h5 : (List.insertionSort leDesc l).length = l.length := hperm.length_eq
  have h6 : ((List.insertionSort leDesc l).drop k).length =
      (List.insertionSort leDesc l).length - k := List.length_drop k _
  omega

/-- With at least nine districts, every index in the five smallest is at
most every index in the five largest (5th-smallest ≤ 5th-largest as soon as
the two selections cannot overlap around the middle). -/
theorem take_asc_le_take_desc (l : List District) (h9 : 9 ≤ l.length)
    (a b : District) (ha : a ∈ (List.insertionSort leAsc l).take 5)
    (hb : b ∈ (List.insertionSort leDesc l).take 5) :
    idxKey a ≤ idxKey b := by
  by_contra hab
  push_neg at hab
  have hA := countP_ge_of_mem_take_asc l 5 a ha
  have hB := countP_ge_of_mem_take_desc l 5 b hb
  have hd : ∀ x ∈ l, ¬((fun x => decide (idxKey a ≤ idxKey x)) x = true ∧
      (fun x => decide (idxKey x ≤ idxKey b)) x = true) := by
    intro x _ hx
    have h1 : idxKey a ≤ idxKey x := of_decide_eq_true hx.1
    have h2 : idxKey x ≤ idxKey b := of_decide_eq_true hx.2
    exact absurd (le_trans h1 h2) (not_le.mpr hab)
  have := countP_two_disjoint_le _ _ l hd
  omega

/-! Length and membership facts about the ranking selections. -/

theorem nsmallest_length (n : ℕ) (df : List District) :
    (nsmallest n df).length = min n (df.filter hasIndex).length := by
  unfold nsmallest
  rw [List.length_take, (List.perm_insertionSort leAsc _).length_eq]

theorem nlargest_length (n : ℕ) (df : List District) :
    (nlargest n df).length = min n (df.filter hasIndex).length := by
  unfold nlargest
  rw [List.length_take, (List.perm_insertionSort leDesc _).length_eq]

theorem mem_nsmallest_hasIndex {n : ℕ} {df : List District} {d : District}
    (hd : d ∈ nsmallest n df) : hasIndex d = true := by
  unfold nsmallest at hd
  have h1 : d ∈ List.insertionSort leAsc (df.filter hasIndex) :=
    (List.take_sublist n _).subset hd
  exact List.of_mem_filter (((List.perm_insertionSort leAsc _).mem_iff).mp h1)

theorem mem_nlargest_hasIndex {n : ℕ} {df : List District} {d : District}
    (hd : d ∈ nlargest n df) : hasIndex d = true := by
  unfold nlargest at hd
  have h1 : d ∈ List.insertionSort leDesc (df.filter hasIndex) :=
    (List.take_sublist n _).subset hd
  exact List.of_mem_filter (((List.perm_insertionSort leDesc _).mem_iff).mp h1)

/-! Pointwise interval form of the two `pd.cut` variants. -/

theorem pdCut_true_eq_intervals (q : ℚ) :
    pdCut true (some q) =
      (if 0 ≤ q ∧ q ≤ 6 then some Band.veryAffordable
       else if 6 < q ∧ q ≤ 9 then some Band.affordable
       else if 9 < q ∧ q ≤ 12 then some Band.expensive
       else if 12 < q then some Band.veryExpensive
       else none) := by
  show (if (0 < q ∨ (true = true ∧ q = 0)) ∧ q ≤ 6 then some Band.veryAffordable
      else if 6 < q ∧ q ≤ 9 then some Band.affordable
      else if 9 < q ∧ q ≤ 12 then some Band.expensive
      else if 12 < q then some Band.veryExpensive
      else none) = _
  by_cases h0 : 0 ≤ q ∧ q ≤ 6
  · have hl : (0 < q ∨ (true = true ∧ q = 0)) ∧ q ≤ 6 := by
      rcases lt_or_eq_of_le h0.1 with h | h
      · exact ⟨Or.inl h, h0.2⟩
      · exact ⟨Or.inr ⟨rfl, h.symm⟩, h0.2⟩
    rw [if_pos hl, if_pos h0]
  · have hl : ¬((0 < q ∨ (true = true ∧ q = 0)) ∧ q ≤ 6) := by
      rintro ⟨h1 | ⟨_, h1⟩, h2⟩
      · exact h0 ⟨le_of_lt h1, h2⟩
      · exact h0 ⟨le_of_eq h1.symm, h2⟩
    rw [if_neg hl, if_neg h0]

theorem pdCut_false_eq_intervals (q : ℚ) :
    pdCut false (some q) =
      (if 0 < q ∧ q ≤ 6 then some Band.veryAffordable
       else if 6 < q ∧ q ≤ 9 then some Band.affordable
       else if 9 < q ∧ q ≤ 12 then some Band.expensive
       else if 12 < q then some Band.veryExpensive
       else none) := by
  show (if (0 < q ∨ (false = true ∧ q = 0)) ∧ q ≤ 6 then some Band.veryAffordable
      else if 6 < q ∧ q ≤ 9 then some Band.affordable
      else if 9 < q ∧ q ≤ 12 then some Band.expensive
      else if 12 < q then some Band.veryExpensive
      else none) = _
  by_cases h0 : 0 < q ∧ q ≤ 6
  · have hl : (0 < q ∨ (false = true ∧ q = 0)) ∧ q ≤ 6 := ⟨Or.inl h0.1, h0.2⟩
    rw [if_pos hl, if_pos h0]
  · have hl : ¬((0 < q ∨ (false = true ∧ q = 0)) ∧ q ≤ 6) := by
      rintro ⟨h1 | ⟨h1, _⟩, h2⟩
      · exact h0 ⟨h1, h2⟩
      · exact absurd h1 (by simp)
    rw [if_neg hl, if_neg h0]

/-! The ten claims. -/

/-- C1: for every district dataset and every user salary strictly greater
than 0, when the update is not triggered by the reset button,
`update_dashboard` sets every district's Housing Affordability Index to its
median house price divided by that salary, the same salary being applied
uniformly to all districts (rational arithmetic stands in for the
floating-point tolerance; a NaN price yields a NaN index). -/
theorem positive_salary_sets_uniform_ratio (base : List District) (s : ℚ) (hs : 0 < s) :
    ((update_dashboard base (some s) false).1.figure.rows).map
        (fun p => p.1.housingAffordabilityIndex) =
      base.map fun d => d.medianHousePrice.map fun p => p / s := by
  rw [out_figure_rows, recomputeIndices_pos base hs]
  simp [List.map_map, Function.comp]

/-- C1 witness: the theorem applied to the two-district sample dataset at
salary 50000. -/
theorem positive_salary_sets_uniform_ratio_witness :
    0 < (50000 : ℚ) ∧
      ((update_dashboard samplePair (some 50000) false).1.figure.rows).map
          (fun p => p.1.housingAffordabilityIndex) =
        samplePair.map fun d => d.medianHousePrice.map fun p => p / 50000 :=
  ⟨by norm_num, positive_salary_sets_uniform_ratio samplePair 50000 (by norm_num)⟩

/-- C2 counterexample: the bins are right-closed, not right-open.  On the
two-district sample dataset (indices 6 and 3 after a reset) the district
with index exactly 6 is coloured Very Affordable, not Affordable as the
claim states; likewise `pd.cut` without `include_lowest` puts 6 in the
lowest band, an index of exactly 9 in Affordable (not Expensive) and an
index of exactly 12 in Expensive (not Very Expensive). -/
theorem bucketing_boundary_counterexample :
    (((update_dashboard samplePair none true).1.figure.rows).map Prod.snd =
      [some Band.veryAffordable, some Band.veryAffordable])
    ∧ pdCut false (some 6) = some Band.veryAffordable
    ∧ Band.veryAffordable ≠ Band.affordable
    ∧ pdCut true (some 9) = some Band.affordable
    ∧ Band.affordable ≠ Band.expensive
    ∧ pdCut true (some 12) = some Band.expensive
    ∧ Band.expensive ≠ Band.veryExpensive := by decide

/-- C2 amended: the bucketing maps an index to the four band labels using
left-open, right-closed intervals.  The cut that the map actually renders
(`generate_affordability_map`, `include_lowest=True`) uses
`[0,6], (6,9], (9,12], (12,∞)` with 0 included in the lowest band; the
overwritten intermediate cut of line 178 uses `(0,6]`, excluding 0.  At the
boundaries, an index of exactly 6 is Very Affordable, 9 is Affordable and
12 is Expensive. -/
theorem bucketing_left_open_right_closed :
    (∀ (base : List District) (sal : Option ℚ) (r : Bool),
      ((update_dashboard base sal r).1.figure.rows).map Prod.snd =
        ((recomputeIndices base sal r).df).map fun d =>
          match d.housingAffordabilityIndex with
          | none => none
          | some q =>
            if 0 ≤ q ∧ q ≤ 6 then some Band.veryAffordable
            else if 6 < q ∧ q ≤ 9 then some Band.affordable
            else if 9 < q ∧ q ≤ 12 then some Band.expensive
            else if 12 < q then some Band.veryExpensive
            else none)
    ∧ (∀ q : ℚ, pdCut false (some q) =
        (if 0 < q ∧ q ≤ 6 then some Band.veryAffordable
         else if 6 < q ∧ q ≤ 9 then some Band.affordable
         else if 9 < q ∧ q ≤ 12 then some Band.expensive
         else if 12 < q then some Band.veryExpensive
         else none))
    ∧ pdCut true (some 6) = some Band.veryAffordable
    ∧ pdCut true (some 9) = some Band.affordable
    ∧ pdCut true (some 12) = some Band.expensive
    ∧ pdCut true (some 0) = some Band.veryAffordable
    ∧ pdCut false (some 0) = none := by
  refine ⟨?_, pdCut_false_eq_intervals, by decide, by decide, by decide, by decide, by decide⟩
  intro base sal r
  rw [out_figure_rows, List.map_map]
  refine congrArg (fun f => List.map f ((recomputeIndices base sal r).df)) (funext fun d => ?_)
  show pdCut true d.housingAffordabilityIndex = _
  cases hx : d.housingAffordabilityIndex with
  | none => rfl
  | some q => exact pdCut_true_eq_intervals q

/-- C3: for every dataset and every salary input value, when the update is
triggered by the reset button, `update_dashboard` restores every district's
Housing Affordability Index to its Original Affordability Index exactly and
clears the warning; the reset branch takes precedence over the salary
branches (the salary input is universally quantified, covering positive and
non-positive values alike). -/
theorem reset_restores_original_indices (base : List District) (sal : Option ℚ) :
    (((update_dashboard base sal true).1.figure.rows).map
        (fun p => p.1.housingAffordabilityIndex) =
      base.map fun d => d.originalAffordabilityIndex)
    ∧ (update_dashboard base sal true).1.warningMessage = ""
    ∧ (update_dashboard base sal true).1.showWarning = false := by
  refine ⟨?_, rfl, rfl⟩
  rw [out_figure_rows, recomputeIndices_reset]
  simp [List.map_map, Function.comp]

/-- C4: when the update is not triggered by reset and the salary input is
non-null and at most 0, `update_dashboard` reverts every district's index to
its Original Affordability Index and raises a visible warning whose text
contains "valid salary greater than £0"; moreover the warning is visible
exactly when the trigger is not reset and the salary is non-null and at
most 0. -/
theorem invalid_salary_reverts_and_warns (base : List District) (s : ℚ) (hs : s ≤ 0) :
    (((update_dashboard base (some s) false).1.figure.rows).map
        (fun p => p.1.housingAffordabilityIndex) =
      base.map fun d => d.originalAffordabilityIndex)
    ∧ (update_dashboard base (some s) false).1.showWarning = true
    ∧ (∃ pre suf : String,
        (update_dashboard base (some s) false).1.warningMessage =
          pre ++ "valid salary greater than £0" ++ suf)
    ∧ (∀ (sal : Option ℚ) (r : Bool),
        ((update_dashboard base sal r).1.showWarning = true ↔
          r = false ∧ ∃ t, sal = some t ∧ t ≤ 0)) := by
  refine ⟨?_, ?_, ?_, ?_⟩
  · rw [out_figure_rows, recomputeIndices_nonpos base hs]
    simp [List.map_map, Function.comp]
  · rw [out_showWarning, recomputeIndices_nonpos base hs]
  · refine ⟨"⚠ Please enter a ", ".", ?_⟩
    rw [out_warningMessage, recomputeIndices_nonpos base hs]
    rfl
  · intro sal r
    rw [out_showWarning]
    cases r with
    | true => simp [recomputeIndices_reset]
    | false =>
      cases sal with
      | none => simp [recomputeIndices_none]
      | some t =>
        by_cases ht : 0 < t
        · simp [recomputeIndices_pos base ht]
          exact ht
        · simp [recomputeIndices_nonpos base (le_of_not_lt ht)]
          exact le_of_not_lt ht

/-- C4 witness: the theorem applied to the sample dataset at the spec's
example salary -100. -/
theorem invalid_salary_reverts_and_warns_witness :
    (-100 : ℚ) ≤ 0 ∧
      ((((update_dashboard samplePair (some (-100)) false).1.figure.rows).map
          (fun p => p.1.housingAffordabilityIndex) =
        samplePair.map fun d => d.originalAffordabilityIndex)
      ∧ (update_dashboard samplePair (some (-100)) false).1.showWarning = true
      ∧ (∃ pre suf : String,
          (update_dashboard samplePair (some (-100)) false).1.warningMessage =
            pre ++ "valid salary greater than £0" ++ suf)
      ∧ (∀ (sal : Option ℚ) (r : Bool),
          ((update_dashboard samplePair sal r).1.showWarning = true ↔
            r = false ∧ ∃ t, sal = some t ∧ t ≤ 0))) :=
  ⟨by norm_num, invalid_salary_reverts_and_warns samplePair (-100) (by norm_num)⟩

/-- C5 counterexample: with only two districts (indices 6 and 3 after the
no-input refresh, all indices distinct so no tie spans any boundary) both
five-row selections return the whole dataset, and the most-affordable
table's maximum index 6 exceeds the least-affordable table's minimum
index 3, refuting the claimed ordering. -/
theorem ranking_tables_order_counterexample :
    ((update_dashboard samplePair none false).1.affordableTable.body.length =
        min 5 samplePair.length)
    ∧ ((recomputeIndices samplePair none false).df.map idxKey).Nodup
    ∧ ∃ a ∈ nsmallest 5 (recomputeIndices samplePair none false).df,
        ∃ b ∈ nlargest 5 (recomputeIndices samplePair none false).df,
          ¬ idxKey a ≤ idxKey b := by decide

/-- C5 amended: when every recomputed index is non-NaN, each ranking table
contains exactly `min 5 district_count` rows; and when moreover there are
at least nine districts (so that the five smallest and five largest cannot
overlap in the middle), every index in the most-affordable table is at most
every index in the least-affordable table — with fewer than nine districts
the two five-row selections overlap and the ordering fails even without
ties. -/
theorem ranking_tables_rows_and_order (base : List District) (sal : Option ℚ) (r : Bool)
    (hall : ∀ d ∈ (recomputeIndices base sal r).df,
      d.housingAffordabilityIndex.isSome = true) :
    ((update_dashboard base sal r).1.affordableTable.body.length = min 5 base.length)
    ∧ ((update_dashboard base sal r).1.expensiveTable.body.length = min 5 base.length)
    ∧ (9 ≤ base.length →
        ∀ a ∈ nsmallest 5 (recomputeIndices base sal r).df,
        ∀ b ∈ nlargest 5 (recomputeIndices base sal r).df,
          idxKey a ≤ idxKey b) := by
  have hfe : ((recomputeIndices base sal r).df).filter hasIndex =
      (recomputeIndices base sal r).df :=
    List.filter_eq_self.mpr fun d hd => hall d hd
  have hlen := recomputeIndices_length base sal r
  refine ⟨?_, ?_, ?_⟩
  · rw [out_affordableTable]
    simp [df_to_html_table, nsmallest_length, hfe, hlen]
  · rw [out_expensiveTable]
    simp [df_to_html_table, nlargest_length, hfe, hlen]
  · intro h9 a ha b hb
    unfold nsmallest at ha
    unfold nlargest at hb
    rw [hfe] at ha hb
    exact take_asc_le_take_desc _ (by omega) a b ha hb

/-- C5 witness: the amended theorem applied to the nine-district sample
dataset on the no-input branch. -/
theorem ranking_tables_rows_and_order_witness :
    (∀ d ∈ (recomputeIndices sampleNine none false).df,
      d.housingAffordabilityIndex.isSome = true) ∧
      (((update_dashboard sampleNine none false).1.affordableTable.body.length =
          min 5 sampleNine.length)
      ∧ ((update_dashboard sampleNine none false).1.expensiveTable.body.length =
          min 5 sampleNine.length)
      ∧ (9 ≤ sampleNine.length →
          ∀ a ∈ nsmallest 5 (recomputeIndices sampleNine none false).df,
          ∀ b ∈ nlargest 5 (recomputeIndices sampleNine none false).df,
            idxKey a ≤ idxKey b)) :=
  ⟨by decide, ranking_tables_rows_and_order sampleNine none false (by decide)⟩

/-- C6: `update_dashboard` never mutates the shared base dataset: for every
loaded dataset and every input the handler leaves the module-level dataframe
— all columns, including the Original Affordability Index snapshot taken at
load time — unchanged, because line 150 binds the per-request frame to a
copy (`CopyMode.copy`); the snapshot still equals the load-time index
column afterwards. -/
theorem base_dataset_never_mutated (rows : List CsvRow) (sal : Option ℚ) (r : Bool) :
    (update_dashboard (loadSnapshot rows) sal r).2 = loadSnapshot rows
    ∧ ((update_dashboard (loadSnapshot rows) sal r).2).map
        (fun d => d.originalAffordabilityIndex) =
      rows.map fun c => c.housingAffordabilityIndex := by
  refine ⟨rfl, ?_⟩
  show (loadSnapshot rows).map _ = _
  simp [loadSnapshot, List.map_map, Function.comp]

/-- C7: reset is idempotent: the handler is stateless over the immutable
base dataset, so invoking the reset-triggered update twice in a row (the
second call running on the dataset as the first call left it) produces
output — figure, both tables, warning text and visibility — identical to
invoking it once. -/
theorem reset_idempotent (base : List District) (sal : Option ℚ) :
    update_dashboard (update_dashboard base sal true).2 sal true =
      update_dashboard base sal true := rfl

/-- C8: each ranking table is exactly the five selected rows formatted by
`formatRow`, and `formatRow` renders a missing or non-numeric (NaN after
coercion) Median House Price, Median Salary or Housing Affordability Index
cell as the literal string "N/A" instead of failing. -/
theorem table_cells_na_on_missing (base : List District) (sal : Option ℚ) (r : Bool) :
    ((update_dashboard base sal r).1.affordableTable =
        df_to_html_table ((nsmallest 5 (recomputeIndices base sal r).df).map formatRow))
    ∧ ((update_dashboard base sal r).1.expensiveTable =
        df_to_html_table ((nlargest 5 (recomputeIndices base sal r).df).map formatRow))
    ∧ ∀ d : District,
        (d.medianHousePrice = none → (formatRow d).medianHousePrice = "N/A")
        ∧ (d.medianSalary = none → (formatRow d).medianSalary = "N/A")
        ∧ (d.housingAffordabilityIndex = none →
            (formatRow d).housingAffordabilityIndex = "N/A") := by
  refine ⟨rfl, rfl, fun d => ⟨fun h => ?_, fun h => ?_, fun h => ?_⟩⟩ <;>
    simp [formatRow, fmtOptCell, h]

/-- C8 witness: the district with all numeric columns missing renders as
"N/A" in every numeric cell. -/
theorem table_cells_na_on_missing_witness :
    (sampleNaN.medianHousePrice = none
      ∧ (formatRow sampleNaN).medianHousePrice = "N/A")
    ∧ (formatRow sampleNaN).medianSalary = "N/A"
    ∧ (formatRow sampleNaN).housingAffordabilityIndex = "N/A" :=
  ⟨⟨rfl, ((table_cells_na_on_missing [sampleNaN] none false).2.2 sampleNaN).1 rfl⟩,
   ((table_cells_na_on_missing [sampleNaN] none false).2.2 sampleNaN).2.1 rfl,
   ((table_cells_na_on_missing [sampleNaN] none false).2.2 sampleNaN).2.2 rfl⟩

/-- C9: in every branch of `update_dashboard`, the warning visibility flag
is true exactly when the warning message string is non-empty. -/
theorem warning_visible_iff_message_nonempty (base : List District) (sal : Option ℚ)
    (r : Bool) :
    ((update_dashboard base sal r).1.showWarning = true ↔
      (update_dashboard base sal r).1.warningMessage ≠ "") := by
  rw [out_showWarning, out_warningMessage]
  cases r with
  | true => simp [recomputeIndices_reset]
  | false =>
    cases sal with
    | none => simp [recomputeIndices_none]
    | some s =>
      by_cases hs : 0 < s
      · simp [recomputeIndices_pos base hs]
      · simp [recomputeIndices_nonpos base (le_of_not_lt hs)]
        decide

/-- C10: a district whose Housing Affordability Index is NaN after
recomputation appears in neither ranking table; each table holds exactly
`min 5 (number of non-NaN rows)` rows, and in the presence of NaN indices a
table can hold fewer than `min 5 district_count` rows. -/
theorem nan_rows_skipped_in_rankings (base : List District) (sal : Option ℚ) (r : Bool) :
    (∀ d ∈ nsmallest 5 (recomputeIndices base sal r).df,
        d.housingAffordabilityIndex ≠ none)
    ∧ (∀ d ∈ nlargest 5 (recomputeIndices base sal r).df,
        d.housingAffordabilityIndex ≠ none)
    ∧ ((update_dashboard base sal r).1.affordableTable.body.length =
        min 5 (((recomputeIndices base sal r).df.filter hasIndex).length))
    ∧ ((update_dashboard base sal r).1.expensiveTable.body.length =
        min 5 (((recomputeIndices base sal r).df.filter hasIndex).length))
    ∧ ∃ small : List District,
        (update_dashboard small none false).1.affordableTable.body.length <
          min 5 small.length := by
  refine ⟨?_, ?_, ?_, ?_, ⟨[sampleNaN], by decide⟩⟩
  · intro d hd
    have h := mem_nsmallest_hasIndex hd
    simpa [hasIndex, Option.isSome_iff_ne_none] using h
  · intro d hd
    have h := mem_nlargest_hasIndex hd
    simpa [hasIndex, Option.isSome_iff_ne_none] using h
  · rw [out_affordableTable]
    simp [df_to_html_table, nsmallest_length]
  · rw [out_expensiveTable]
    simp [df_to_html_table, nlargest_length]

/-- C10 witness: a non-NaN district is selected and indeed has a non-NaN
index, on a dataset that also contains an all-NaN district. -/
theorem nan_rows_skipped_in_rankings_witness :
    (sampleB ∈ nsmallest 5 (recomputeIndices [sampleB, sampleNaN] none false).df)
    ∧ sampleB.housingAffordabilityIndex ≠ none :=
  ⟨by decide,
   (nan_rows_skipped_in_rankings [sampleB, sampleNaN] none false).1 sampleB (by decide)⟩

end HAIDash
